import Mathlib

/-!
Verification of the connection/session lifecycle state machine of a
browser-based voice calling SDK (the `Account` class managing the SIP
user agent, plus the IP-resolution helper in the stats HTTP module).

The definitions below are a shallow embedding of the TypeScript source:
each event handler becomes a pure function from an explicit state (the
fields of the `Account` and its `Client` that the handler reads or
writes) to a new state paired with the list of observable effects the
handler performs (events emitted to the host, SIP responses, timers
scheduled, collaborator calls).  JavaScript truthiness of optional
values and the evaluation order of the source conditions are modelled
explicitly.
-/

namespace Plivo

/-- Connection state: the `state` field of `connectionInfo` is the empty
string initially, then CONNECTED / DISCONNECTED. -/
inductive ConnState
  | empty
  | connected
  | disconnected
deriving DecidableEq, Repr

/-- `cs.connectionInfo`: a connection state plus a free-text reason. -/
structure ConnectionInfo where
  state : ConnState
  reason : String
deriving DecidableEq, Repr

/-- A JavaScript value of a credential field: `undefined`, `null`, or a
string. -/
inductive JSVal
  | undef
  | nullv
  | str (s : String)
deriving DecidableEq, Repr

/-- Observable effects performed by the handlers: events emitted on the
client, SIP-level actions, and calls into collaborators. -/
inductive Ev
  | onLoginFailed (reason : String)
  | onConnectionChange (info : ConnectionInfo)
  | onLogin
  | onLogout
  | invokeLoginCallback
  | phoneStop
  | terminate (statusCode : Nat) (reasonPhrase : String)
  | createStatsSocketEv
  | addMidAttributeEv
  | createIncomingSessionEv
  | createOutgoingSessionEv
  | mediaSetupInit
  | startSpeechRecognition
  | clearNetworkChangeInterval
  | startPingPong (onCallInterval : Bool)
  | fetchIPAndRecordNetworkInfo
  | recreateStatsSocket
  | tiggerNetworkChangeCall
  | setExpiryTimeInEpoch (ms : Option Nat)
  | sendNetworkChangeEvent (ip : String)
  | scheduleRetry (delayMs : Nat)
  | socketReconnectionRetry
  | createNewUATransport
  | startTransport
  | sendReInvite
  | stopRingtone
  | stopRingback
  | recordDisconnectTimestamp
  | initNoiseSuppression
  | validateCallStats
  | initCallInsights
  | clearOnLogout
deriving DecidableEq, Repr

/-- Number of `onLogin` events in an effect list. -/
def countOnLogin : List Ev → Nat
  | [] => 0
  | Ev.onLogin :: rest => countOnLogin rest + 1
  | _ :: rest => countOnLogin rest

/-- Number of `onConnectionChange` events in an effect list. -/
def countConnChange : List Ev → Nat
  | [] => 0
  | Ev.onConnectionChange _ :: rest => countConnChange rest + 1
  | _ :: rest => countConnChange rest

/-- Number of `invokeLoginCallback` effects in an effect list. -/
def countInvokeLoginCallback : List Ev → Nat
  | [] => 0
  | Ev.invokeLoginCallback :: rest => countInvokeLoginCallback rest + 1
  | _ :: rest => countInvokeLoginCallback rest

/-! ### `_onDisconnected` (transport disconnect handler)

Source: `_onDisconnected` records the disconnect code (when the event
carries a truthy one), drops the socket-connected flag, fires and clears
a queued login callback, and — unless `ignoreReconnection` is set —
bumps the module-level `urlIndex` cursor and rebuilds the transport via
`setupUAConfig` (which resets `urlIndex` to 0 once it runs past the end
of the endpoint list). -/

/-- The disconnect event: `code` is optional, and `0`, like
`null`/`undefined`, is falsy in the `if (evt.code)` test. -/
structure DisconnectEvent where
  code : Option Nat
  ignoreReconnection : Bool
deriving DecidableEq, Repr

/-- State touched by `_onDisconnected`: `cs.connectionInfo`, the
`isPlivoSocketConnected` flag, the presence of `cs.loginCallback`, and
the module-level `urlIndex` endpoint cursor. -/
structure TransportState where
  connectionInfo : ConnectionInfo
  isPlivoSocketConnected : Bool
  hasLoginCallback : Bool
  urlIndex : Nat
deriving DecidableEq, Repr

/-- JavaScript truthiness of `evt.code`. -/
def codeTruthy : Option Nat → Bool
  | none => false
  | some c => c != 0

/-- The `urlIndex` adjustment performed inside `setupUAConfig`:
`if (urlIndex >= wsServers.length) urlIndex = 0`. -/
def normalizeUrlIndex (numEndpoints idx : Nat) : Nat :=
  if idx ≥ numEndpoints then 0 else idx

/-- Shallow embedding of `_onDisconnected`.  `numEndpoints` is the
length of the configured `wsServers` list read by `setupUAConfig`. -/
def onDisconnected (numEndpoints : Nat) (st : TransportState) (evt : DisconnectEvent) :
    TransportState × List Ev :=
  let st1 :=
    if codeTruthy evt.code then
      { st with connectionInfo := ⟨ConnState.disconnected, toString (evt.code.getD 0)⟩ }
    else st
  let st2 := { st1 with isPlivoSocketConnected := false }
  let st3 := if st2.hasLoginCallback then { st2 with hasLoginCallback := false } else st2
  let evs1 : List Ev := if st2.hasLoginCallback then [Ev.invokeLoginCallback] else []
  if evt.ignoreReconnection then
    (st3, evs1)
  else
    ({ st3 with urlIndex := normalizeUrlIndex numEndpoints (st3.urlIndex + 1) },
      evs1 ++ [Ev.socketReconnectionRetry, Ev.createNewUATransport, Ev.startTransport,
        Ev.sendReInvite])

/-! ### `_validate` (login precondition check)

Source: `_validate` checks the credentials, an ongoing call, and
`navigator.onLine`; on a pre-existing phone instance it queues the login
callback, stops the old transport, and returns the (truthy) callback. -/

/-- Outcome of `_validate`, reflecting the JavaScript control flow:
the credential condition can throw a `TypeError` (accessing `.length`
of a `null` password), return `false`, return the queued callback
(a truthy value), or return `true`. -/
inductive ValidateResult
  | throwTypeError
  | retFalse
  | retCallback
  | retTrue
deriving DecidableEq, Repr

/-- Inputs read by `_validate`: the stored credentials, whether
`cs._currentSession` is set, `navigator.onLine`, and whether a previous
`cs.phone` instance exists. -/
structure ValidateCtx where
  userName : JSVal
  password : JSVal
  hasCurrentSession : Bool
  navigatorOnLine : Bool
  hasPhone : Bool
deriving DecidableEq, Repr

/-- The credential condition of `_validate`, in source evaluation order:
`typeof userName === 'undefined' || typeof password === 'undefined'
|| userName === null || (password === null && (userName.length <= 0
|| password.length <= 0))`.  When the password is `null` and the
username is a non-empty string, evaluating `password.length` throws. -/
def credentialsRejected : JSVal → JSVal → Except Unit Bool
  | JSVal.undef, _ => Except.ok true
  | _, JSVal.undef => Except.ok true
  | JSVal.nullv, _ => Except.ok true
  | JSVal.str s, JSVal.nullv => if s.length ≤ 0 then Except.ok true else Except.error ()
  | JSVal.str _, JSVal.str _ => Except.ok false

/-- Shallow embedding of `_validate`. -/
def validate (ctx : ValidateCtx) : ValidateResult × List Ev :=
  match credentialsRejected ctx.userName ctx.password with
  | Except.error _ => (ValidateResult.throwTypeError, [])
  | Except.ok true =>
    (ValidateResult.retFalse, [Ev.onLoginFailed "Username and password must be filled out"])
  | Except.ok false =>
    if ctx.hasCurrentSession then
      (ValidateResult.retFalse, [Ev.onLoginFailed "Cannot login when there is an ongoing call"])
    else if ctx.navigatorOnLine = false then
      (ValidateResult.retFalse, [Ev.onLoginFailed "Cannot login when there is no internet"])
    else if ctx.hasPhone then
      (ValidateResult.retCallback, [Ev.phoneStop])
    else
      (ValidateResult.retTrue, [])

/-! ### `_validateRTCSession` / `_onNewRTCSession` (session admission)

Source: `_onNewRTCSession` creates the stats socket, runs
`_validateRTCSession` (stale-primary self-heal, purge of ended pending
invites, busy check with SIP 486), and on acceptance constructs an
incoming session (originator `remote`, after `addMidAttribute`) or an
outgoing session. -/

/-- A pending inbound invite held in `cs.incomingInvites`; `isEnded`
models `invite.session.isEnded()`. -/
structure Invite where
  callUUID : String
  isEnded : Bool
deriving DecidableEq, Repr

/-- The primary session reference: `connectionSignalingState = none`
models a null `session.connection`; `some s` a connection whose
`signalingState` is `s`. -/
structure PrimarySession where
  connectionSignalingState : Option String
deriving DecidableEq, Repr

/-- The call-related client state read and written by the admission
path.  `cs.incomingInvites` is a map keyed by the invite's call UUID;
it is modelled as the list of its entries. -/
structure CallState where
  currentSession : Option PrimarySession
  callSessionSet : Bool
  callUUID : Option String
  callDirection : Option String
  incomingInvites : List Invite
  allowMultipleIncomingCalls : Bool
deriving DecidableEq, Repr

/-- The stale-primary test of `_validateRTCSession`:
`cs._currentSession && cs._currentSession.session.connection &&
connection.signalingState === 'closed'`. -/
def isStalePrimary (s : CallState) : Bool :=
  match s.currentSession with
  | some p => p.connectionSignalingState == some "closed"
  | none => false

/-- First step of `_validateRTCSession`: clear the primary-session
reference and the related call identifiers when the primary is stale. -/
def cleanupStalePrimary (s : CallState) : CallState :=
  if isStalePrimary s then
    { s with
      currentSession := none
      callSessionSet := false
      callUUID := none
      callDirection := none }
  else s

/-- Second step of `_validateRTCSession`: delete every pending invite
whose underlying session has ended (the source iterates the map and
deletes by the invite's own call UUID, which on a well-keyed map is
exactly this filter). -/
def purgeEndedInvites (s : CallState) : CallState :=
  { s with incomingInvites := s.incomingInvites.filter (fun i => !i.isEnded) }

/-- The busy condition of `_validateRTCSession`:
`((cs._currentSession || cs.incomingInvites.size) &&
!cs.options.allowMultipleIncomingCalls) || cs.incomingInvites.size >=
NUMBER_OF_SIMULTANEOUS_INCOMING_CALLS_ALLOWED`.  The ceiling constant
is a parameter. -/
def busyCondition (ceiling : Nat) (s : CallState) : Bool :=
  ((s.currentSession.isSome || s.incomingInvites.length != 0)
      && !s.allowMultipleIncomingCalls)
    || decide (s.incomingInvites.length ≥ ceiling)

/-- Shallow embedding of `_validateRTCSession`: cleaned state, the
boolean result, and the effects (a SIP 486 termination on reject). -/
def validateRTCSession (ceiling : Nat) (s : CallState) : CallState × Bool × List Ev :=
  let s2 := purgeEndedInvites (cleanupStalePrimary s)
  if busyCondition ceiling s2 then
    (s2, false, [Ev.terminate 486 "Busy Here"])
  else
    (s2, true, [])

/-- Shallow embedding of `_onNewRTCSession`.  `originator` is the
event's originator string (`"local"` or `"remote"`). -/
def onNewRTCSession (ceiling : Nat) (s : CallState) (originator : String) :
    CallState × List Ev :=
  let r := validateRTCSession ceiling s
  if r.2.1 = false then
    (r.1, Ev.createStatsSocketEv :: r.2.2)
  else if originator == "remote" then
    (r.1, Ev.createStatsSocketEv :: (r.2.2
      ++ [Ev.addMidAttributeEv, Ev.createIncomingSessionEv, Ev.mediaSetupInit]))
  else
    (r.1, Ev.createStatsSocketEv :: (r.2.2
      ++ [Ev.createOutgoingSessionEv, Ev.mediaSetupInit]))

/-! ### JWT expiry header parsing (inside `_onRegistered`)

Source: `res.response.headers['X-Plivo-Jwt'][0].raw.split(";")[0]
.split("=")[1]` multiplied by `1000` and passed to
`setExpiryTimeInEpoch`.  JavaScript string `split` on a single-character
separator and the string-to-number coercion of the multiplication are
modelled below; `none` models `NaN` (the result when the indexing
yields `undefined` or the string is not numeric). -/

/-- JavaScript `split` on a single-character separator, on the
character list of the string. -/
def splitOnCharList (sep : Char) : List Char → List (List Char)
  | [] => [[]]
  | c :: rest =>
    let r := splitOnCharList sep rest
    if c = sep then [] :: r
    else
      match r with
      | [] => [[c]]
      | g :: gs => (c :: g) :: gs

/-- JavaScript `s.split(sep)` for a single-character separator. -/
def jsSplitChar (s : String) (sep : Char) : List String :=
  (splitOnCharList sep s.toList).map (fun l => String.mk l)

/-- Fold a character list as a decimal numeral; any non-digit yields
`none` (NaN).  The empty list yields `some 0`, matching
`Number("") = 0`. -/
def decimalValue (cs : List Char) : Option Nat :=
  cs.foldl
    (fun acc c =>
      match acc with
      | none => none
      | some n => if c.isDigit then some (n * 10 + (c.toNat - 48)) else none)
    (some 0)

/-- JavaScript number coercion of a string, restricted to the
whitespace-padded non-negative decimal numerals that occur here;
`none` models NaN. -/
def jsNumberOfString (s : String) : Option Nat :=
  decimalValue (((s.toList.dropWhile (fun c => c = ' ')).reverse.dropWhile
    (fun c => c = ' ')).reverse)

/-- The value stored by `setExpiryTimeInEpoch`: the substring after the
first `=` of the first `;`-delimited segment of the header's raw value,
coerced to a number and multiplied by 1000; `none` models storing NaN
(in particular when the first segment contains no `=`, where the
indexing yields `undefined`). -/
def jwtExpiryStoredMs (raw : String) : Option Nat :=
  match (jsSplitChar ((jsSplitChar raw ';').headD "") '=')[1]? with
  | none => none
  | some v => (jsNumberOfString v).map (fun n => n * 1000)

/-! ### `_onRegistered` (registration success handler) -/

/-- State read and written by `_onRegistered`: session and mute flags,
the queued login callback, the connection info, the token mode, the
login flags, the client-side stored credentials, and the `Account`'s
credential fields copied into the client. -/
structure RegState where
  hasCurrentSession : Bool
  isCallMuted : Bool
  hasLoginCallback : Bool
  connectionInfo : ConnectionInfo
  isAccessToken : Bool
  isLoggedIn : Bool
  isLoginCalled : Bool
  userName : Option String
  password : Option String
  credUserName : String
  credPassword : String
deriving DecidableEq, Repr

/-- The tail of `_onRegistered` after the network-change block:
`if (!isLoginCalled) isLoggedIn = true`, the credential copy, and the
fresh-login block that emits `onLogin`. -/
def onRegisteredTail (st : RegState) (evs : List Ev) : RegState × List Ev :=
  let st1 := if st.isLoginCalled = false then { st with isLoggedIn := true } else st
  let st2 := { st1 with userName := some st1.credUserName, password := some st1.credPassword }
  if st2.isLoggedIn = false && st2.isLoginCalled = true then
    ({ st2 with isLoggedIn := true, isLoginCalled := false },
      evs ++ [Ev.initNoiseSuppression, Ev.onLogin, Ev.startPingPong false,
        Ev.validateCallStats, Ev.initCallInsights])
  else
    (st2, evs)

/-- Shallow embedding of `_onRegistered`.  `jwtHeaderRaw` is the raw
value of the `X-Plivo-Jwt` response header when present. -/
def onRegistered (st0 : RegState) (jwtHeaderRaw : Option String) : RegState × List Ev :=
  let evsA : List Ev :=
    if st0.hasCurrentSession && st0.isCallMuted then [Ev.startSpeechRecognition] else []
  let st1 := { st0 with
    hasLoginCallback := false
    connectionInfo := ⟨ConnState.connected, "registered"⟩ }
  let evsB := evsA ++ [Ev.onConnectionChange ⟨ConnState.connected, "registered"⟩]
  let evsC := evsB ++
    (if st1.isAccessToken then
      match jwtHeaderRaw with
      | some raw => [Ev.setExpiryTimeInEpoch (jwtExpiryStoredMs raw)]
      | none => []
    else [])
  if st1.isLoggedIn = false && st1.isLoginCalled = false then
    let evsD := evsC ++ [Ev.clearNetworkChangeInterval, Ev.startPingPong st1.hasCurrentSession]
    if st1.hasCurrentSession = false then
      ({ st1 with isLoggedIn := true }, evsD ++ [Ev.fetchIPAndRecordNetworkInfo])
    else
      onRegisteredTail st1 (evsD ++ [Ev.recreateStatsSocket, Ev.tiggerNetworkChangeCall])
  else
    onRegisteredTail st1 evsC

/-- A trace of `registered` events: fold `onRegistered` over the list
of per-event JWT headers, accumulating the emitted effects. -/
def runRegistered : RegState → List (Option String) → RegState × List Ev
  | st, [] => (st, [])
  | st, h :: hs =>
    let r1 := onRegistered st h
    let r2 := runRegistered r1.1 hs
    (r2.1, r1.2 ++ r2.2)

/-! ### `tiggerNetworkChangeEvent` (bounded IP-resolution retry) -/

/-- Outcome of one `fetchIPAddress()` attempt as seen by the `.then`
handler of `tiggerNetworkChangeEvent`: the promise fulfils with a
string, fulfils with a non-string value, or rejects (in which case the
handler never runs — there is no rejection handler). -/
inductive ResolveOutcome
  | fulfilledString (ip : String)
  | fulfilledNonString
  | rejected
deriving DecidableEq, Repr

/-- Shallow embedding of one activation of `tiggerNetworkChangeEvent`:
given the retry ceiling `IP_ADDRESS_FETCH_RETRY_COUNT`, the current
`fetchIpCount`, and the resolution outcome, return the new count and
the effects. -/
def tiggerNetworkChangeEvent (retryCeiling fetchIpCount : Nat) (o : ResolveOutcome) :
    Nat × List Ev :=
  let c := fetchIpCount + 1
  match o with
  | ResolveOutcome.fulfilledString ip => (c, [Ev.sendNetworkChangeEvent ip])
  | ResolveOutcome.fulfilledNonString =>
    if c != retryCeiling then (c, [Ev.scheduleRetry (c * 200)])
    else (0, [])
  | ResolveOutcome.rejected => (c, [])

/-- Iterate `n` failed (non-string fulfilment) activations from a given
count, tracking only the counter. -/
def runRetryFailures (retryCeiling : Nat) : Nat → Nat → Nat
  | c, 0 => c
  | c, Nat.succ n =>
    runRetryFailures retryCeiling
      (tiggerNetworkChangeEvent retryCeiling c ResolveOutcome.fulfilledNonString).1 n

/-! ### `_onRegistrationFailed` -/

/-- State read and written by `_onRegistrationFailed`. -/
structure RegFailState where
  connectionInfo : ConnectionInfo
  isLoggedIn : Bool
  userName : Option String
  password : Option String
  isAccessTokenGenerator : Bool
  networkChangeIntervalActive : Bool
deriving DecidableEq, Repr

/-- The failure event: an optional `cause` string and the parsed
`X-Plivo-Jwt-Error-Code` header when present. -/
structure RegFailError where
  cause : Option String
  jwtErrorCode : Option Nat
deriving DecidableEq, Repr

/-- JavaScript truthiness of `error.cause` (absent or empty is falsy). -/
def causeTruthy : Option String → Bool
  | none => false
  | some s => s != ""

/-- Shallow embedding of `_onRegistrationFailed`.
`errorStringByCode` models `cs.getErrorStringByErrorCodes`. -/
def onRegistrationFailed (st : RegFailState) (err : RegFailError)
    (errorStringByCode : Nat → String) : RegFailState × List Ev :=
  if st.connectionInfo.state = ConnState.disconnected ∧ st.isLoggedIn = true then
    (st, [])
  else
    let st1 := { st with isLoggedIn := false, userName := none, password := none }
    let errorCode := err.jwtErrorCode.getD 401
    if causeTruthy err.cause && (errorCode == 401) then
      (st1, [Ev.onLoginFailed (err.cause.getD "")])
    else
      ({ st1 with networkChangeIntervalActive := false },
        [Ev.clearNetworkChangeInterval,
          Ev.onLoginFailed
            (if st.isAccessTokenGenerator then "RELOGIN_FAILED_INVALID_TOKEN"
             else errorStringByCode errorCode)])

/-! ### `_onUnRegistered` -/

/-- State read and written by `_onUnRegistered`. -/
structure UnregState where
  isLoggedIn : Bool
  connectionInfo : ConnectionInfo
  isLogoutCalled : Bool
  ringTonePlaying : Bool
  ringBackPlaying : Bool
  userName : Option String
  password : Option String
  networkChangeIntervalActive : Bool
deriving DecidableEq, Repr

/-- Shallow embedding of `_onUnRegistered`: mark logged out, set
DISCONNECTED/"unregistered" only from the initial empty state or from
CONNECTED, always emit `onConnectionChange`, and run the logout branch
only when `isLogoutCalled`. -/
def onUnRegistered (st : UnregState) : UnregState × List Ev :=
  let st1 := { st with isLoggedIn := false }
  let st2 :=
    if st1.connectionInfo.state = ConnState.empty
        ∨ st1.connectionInfo.state = ConnState.connected then
      { st1 with connectionInfo := ⟨ConnState.disconnected, "unregistered"⟩ }
    else st1
  let evs0 := [Ev.onConnectionChange st2.connectionInfo]
  if st2.isLogoutCalled = false then
    (st2, evs0)
  else
    let evs1 := evs0
      ++ (if st2.ringTonePlaying then [Ev.stopRingtone] else [])
      ++ (if st2.ringBackPlaying then [Ev.stopRingback] else [])
      ++ [Ev.recordDisconnectTimestamp, Ev.onLogout]
      ++ (if st2.networkChangeIntervalActive then [Ev.clearNetworkChangeInterval] else [])
      ++ [Ev.clearOnLogout]
    ({ st2 with
        userName := none
        password := none
        networkChangeIntervalActive := false
        isLogoutCalled := false }, evs1)

/-! ## Helper lemmas -/

/-- Filtering out ended invites is the identity on a list of live invites. -/
theorem filter_live_eq_self (l : List Invite) (h : ∀ i ∈ l, i.isEnded = false) :
    l.filter (fun i => !i.isEnded) = l := by
  induction l with
  | nil => rfl
  | cons a t ih =>
    have ha := h a (List.mem_cons_self a t)
    simp [List.filter, ha, ih (fun i hi => h i (List.mem_cons_of_mem a hi))]

/-- Filtering out ended invites empties a list of ended invites. -/
theorem filter_ended_eq_nil (l : List Invite) (h : ∀ i ∈ l, i.isEnded = true) :
    l.filter (fun i => !i.isEnded) = [] := by
  induction l with
  | nil => rfl
  | cons a t ih =>
    have ha := h a (List.mem_cons_self a t)
    simp [List.filter, ha, ih (fun i hi => h i (List.mem_cons_of_mem a hi))]

/-- The `setupUAConfig` cursor normalization computes the successor
modulo the endpoint count, for an in-range cursor. -/
theorem normalizeUrlIndex_mod (len idx : Nat) (h : idx < len) :
    normalizeUrlIndex len (idx + 1) = (idx + 1) % len := by
  unfold normalizeUrlIndex
  split
  · next hge =>
    have hEq : idx + 1 = len := by omega
    rw [hEq, Nat.mod_self]
  · next hlt =>
    rw [Nat.mod_eq_of_lt (by omega)]

/-- `countOnLogin` distributes over append. -/
theorem countOnLogin_append (a b : List Ev) :
    countOnLogin (a ++ b) = countOnLogin a + countOnLogin b := by
  induction a with
  | nil => simp [countOnLogin]
  | cons e t ih => cases e <;> (simp [countOnLogin, ih]; try omega)

/-- A non-ignored disconnect leaves the cursor at the normalized
successor of the previous cursor. -/
theorem onDisconnected_urlIndex (n : Nat) (st : TransportState) (evt : DisconnectEvent)
    (hign : evt.ignoreReconnection = false) :
    (onDisconnected n st evt).1.urlIndex = normalizeUrlIndex n (st.urlIndex + 1) := by
  obtain ⟨ci, sp, lc, ui⟩ := st
  obtain ⟨code, ign⟩ := evt
  simp only at hign
  subst hign
  cases hc : codeTruthy code <;> cases lc <;> simp [onDisconnected, hc]

/-- Every `registered` event leaves the client marked logged in. -/
theorem onRegistered_isLoggedIn (st : RegState) (h : Option String) :
    (onRegistered st h).1.isLoggedIn = true := by
  obtain ⟨hcs, mu, lcb, ci, iat, hL, hC, un, pw, cu, cp⟩ := st
  cases hL <;> cases hC <;> cases hcs <;>
    simp [onRegistered, onRegisteredTail]

/-- A single `registered` event emits `onLogin` exactly when a fresh
login is pending (login called and not yet logged in). -/
theorem onRegistered_countOnLogin (st : RegState) (h : Option String) :
    countOnLogin (onRegistered st h).2
      = if st.isLoggedIn = false ∧ st.isLoginCalled = true then 1 else 0 := by
  obtain ⟨hcs, mu, lcb, ci, iat, hL, hC, un, pw, cu, cp⟩ := st
  cases hL <;> cases hC <;> cases hcs <;> cases mu <;> cases iat <;> cases h <;>
    simp [onRegistered, onRegisteredTail, countOnLogin, countOnLogin_append]

/-- No `onLogin` is emitted along any trace of `registered` events that
starts with the client already logged in. -/
theorem runRegistered_count_zero (hs : List (Option String)) :
    ∀ st : RegState, st.isLoggedIn = true → countOnLogin (runRegistered st hs).2 = 0 := by
  induction hs with
  | nil => intro st hL; rfl
  | cons h t ih =>
    intro st hL
    simp only [runRegistered, countOnLogin_append]
    rw [onRegistered_countOnLogin, ih _ (onRegistered_isLoggedIn st h)]
    simp [hL]

/-- Failure-only retry runs keep the counter strictly below the
ceiling. -/
theorem runRetryFailures_lt (ceiling : Nat) (hpos : 0 < ceiling) :
    ∀ n c, c < ceiling → runRetryFailures ceiling c n < ceiling := by
  intro n
  induction n with
  | zero => intro c hc; exact hc
  | succ n ih =>
    intro c hc
    simp only [runRetryFailures, tiggerNetworkChangeEvent]
    by_cases h : c + 1 = ceiling
    · simp only [h, bne_self_eq_false, Bool.false_eq_true, if_false]
      exact ih 0 hpos
    · have hb : ((c + 1 : Nat) != ceiling) = true := by simp [bne_iff_ne, h]
      simp only [hb, if_true]
      exact ih (c + 1) (by omega)

/-! ## Claim theorems -/

/-- C1: on a new RTC session event over a state with no stale primary
session and no ended pending invite, the admission controller
terminates the offered session with SIP 486 "Busy Here" and creates no
session object exactly when (a primary session or a pending invite
exists and multiplexing is disabled) or the pending-invite count is at
or above the ceiling; otherwise it accepts, constructing an inbound
session for originator `remote` and an outbound session otherwise. -/
theorem onNewRTCSession_admission (ceiling : Nat) (s : CallState) (originator : String)
    (hstale : isStalePrimary s = false)
    (hlive : ∀ i ∈ s.incomingInvites, i.isEnded = false) :
    onNewRTCSession ceiling s originator =
      (if busyCondition ceiling s then
        (s, [Ev.createStatsSocketEv, Ev.terminate 486 "Busy Here"])
      else if originator == "remote" then
        (s, [Ev.createStatsSocketEv, Ev.addMidAttributeEv, Ev.createIncomingSessionEv,
          Ev.mediaSetupInit])
      else
        (s, [Ev.createStatsSocketEv, Ev.createOutgoingSessionEv, Ev.mediaSetupInit])) := by
  have hclean : cleanupStalePrimary s = s := by
    simp [cleanupStalePrimary, hstale]
  have hpurge : purgeEndedInvites s = s := by
    unfold purgeEndedInvites
    rw [filter_live_eq_self s.incomingInvites hlive]
  unfold onNewRTCSession validateRTCSession
  rw [hclean, hpurge]
  cases hb : busyCondition ceiling s
  · cases ho : originator == "remote" <;> simp [hb, ho]
  · simp [hb]

/-- C1 witness (Scenario C): with an active primary session and
multiplexing disabled, a new remote session is rejected with 486 "Busy
Here" and no session object is created. -/
theorem onNewRTCSession_admission_witness :
    onNewRTCSession 2
        ⟨some ⟨some "stable"⟩, true, some "uuid1", some "outgoing", [], false⟩ "remote"
      = (⟨some ⟨some "stable"⟩, true, some "uuid1", some "outgoing", [], false⟩,
         [Ev.createStatsSocketEv, Ev.terminate 486 "Busy Here"]) := by
  have h := onNewRTCSession_admission 2
    ⟨some ⟨some "stable"⟩, true, some "uuid1", some "outgoing", [], false⟩ "remote"
    (by decide) (by simp)
  exact h.trans rfl

/-- C2: handling a transport disconnected event that is not flagged
with ignore-reconnection advances the endpoint cursor by exactly one
with wraparound, and with three endpoints and cursor 0 two consecutive
non-ignored disconnects leave the cursor at 2. -/
theorem onDisconnected_cursor_advances (numEndpoints : Nat) (st : TransportState)
    (evt : DisconnectEvent) (hidx : st.urlIndex < numEndpoints)
    (hign : evt.ignoreReconnection = false) :
    (onDisconnected numEndpoints st evt).1.urlIndex
        = (st.urlIndex + 1) % numEndpoints ∧
    (onDisconnected 3 (onDisconnected 3 ⟨⟨ConnState.empty, ""⟩, false, false, 0⟩
        ⟨some 1006, false⟩).1 ⟨some 1006, false⟩).1.urlIndex = 2 := by
  constructor
  · rw [onDisconnected_urlIndex numEndpoints st evt hign]
    exact normalizeUrlIndex_mod numEndpoints st.urlIndex hidx
  · rfl

/-- C2 witness: a concrete non-ignored disconnect at cursor 0 of 3
endpoints moves the cursor to 1 = (0 + 1) % 3. -/
theorem onDisconnected_cursor_advances_witness :
    (onDisconnected 3 ⟨⟨ConnState.empty, ""⟩, false, false, 0⟩
        ⟨some 1006, false⟩).1.urlIndex = (0 + 1) % 3 :=
  (onDisconnected_cursor_advances 3 ⟨⟨ConnState.empty, ""⟩, false, false, 0⟩
    ⟨some 1006, false⟩ (by decide) rfl).1

/-- C3 (code bug): `_validate` accepts empty-string credentials — with
username and password both the empty string (and no ongoing call,
connectivity available, no previous phone), validation returns `true`
and emits no `onLoginFailed`, although the credentials are empty. -/
theorem validate_accepts_empty_credentials :
    validate ⟨JSVal.str "", JSVal.str "", false, true, false⟩
      = (ValidateResult.retTrue, []) := rfl

/-- C4 counterexample: with retry ceiling 2, a successful resolution at
count 0 leaves the counter at 1 instead of resetting it to 0, and the
outcome trace success, success, failure drives the counter to 3,
exceeding the ceiling. -/
theorem tiggerNetworkChangeEvent_counterexample :
    (tiggerNetworkChangeEvent 2 0 (ResolveOutcome.fulfilledString "203.0.113.7")).1 = 1 ∧
    (1 : Nat) ≠ 0 ∧
    (tiggerNetworkChangeEvent 2
      (tiggerNetworkChangeEvent 2
        (tiggerNetworkChangeEvent 2 0 (ResolveOutcome.fulfilledString "203.0.113.7")).1
        (ResolveOutcome.fulfilledString "203.0.113.7")).1
      ResolveOutcome.fulfilledNonString).1 = 3 ∧
    2 < 3 := by
  refine ⟨rfl, by decide, rfl, by decide⟩

/-- C4 (amended): each activation increments the counter first; on a
string resolution it emits the network-change event with the resolved
address, leaving the counter at its incremented value (no reset); on a
non-string resolution it schedules another attempt after
(incremented count) × 200 ms whenever the incremented count differs
from the ceiling, and when the incremented count equals the ceiling it
resets the counter to 0 without emitting; along failure-only runs
started from 0 the counter never exceeds the ceiling. -/
theorem tiggerNetworkChangeEvent_amended (ceiling c n : Nat) (ip : String)
    (hne : c + 1 ≠ ceiling) (hpos : 0 < ceiling) :
    (tiggerNetworkChangeEvent ceiling c (ResolveOutcome.fulfilledString ip)
        = (c + 1, [Ev.sendNetworkChangeEvent ip])) ∧
    (tiggerNetworkChangeEvent ceiling c ResolveOutcome.fulfilledNonString
        = (c + 1, [Ev.scheduleRetry ((c + 1) * 200)])) ∧
    (tiggerNetworkChangeEvent ceiling (ceiling - 1) ResolveOutcome.fulfilledNonString
        = (0, [])) ∧
    runRetryFailures ceiling 0 n < ceiling := by
  refine ⟨rfl, ?_, ?_, runRetryFailures_lt ceiling hpos n 0 hpos⟩
  · have hb : ((c + 1 : Nat) != ceiling) = true := by simp [bne_iff_ne, hne]
    simp [tiggerNetworkChangeEvent, hb]
  · have hEq : ceiling - 1 + 1 = ceiling := by omega
    simp [tiggerNetworkChangeEvent, hEq]

/-- C4 witness: ceiling 3, count 0, a concrete address, and a
failure-only run of length 5. -/
theorem tiggerNetworkChangeEvent_amended_witness :
    (tiggerNetworkChangeEvent 3 0 (ResolveOutcome.fulfilledString "203.0.113.7")
        = (1, [Ev.sendNetworkChangeEvent "203.0.113.7"])) ∧
    runRetryFailures 3 0 5 < 3 :=
  have h := tiggerNetworkChangeEvent_amended 3 0 5 "203.0.113.7" (by decide) (by decide)
  ⟨h.1, h.2.2.2⟩

/-- C5: across any nonempty sequence of registered events, the number
of `onLogin` notifications equals 1 when the first event arrives with a
fresh login pending (login called, not yet logged in) and 0 otherwise —
in particular 0 for a registration that follows a network-change
reconnection while already logged in. -/
theorem runRegistered_onLogin_once (st : RegState) (h : Option String)
    (hs : List (Option String)) :
    countOnLogin (runRegistered st (h :: hs)).2
      = if st.isLoggedIn = false ∧ st.isLoginCalled = true then 1 else 0 := by
  simp only [runRegistered, countOnLogin_append]
  rw [onRegistered_countOnLogin,
    runRegistered_count_zero hs _ (onRegistered_isLoggedIn st h)]
  omega

/-- C6 counterexample (Scenario D): in access-token mode, for the
header raw value "abc; exp=1700000000" the handler stores NaN (the
first semicolon segment "abc" has nothing after an equals sign), not
1700000000000 ms. -/
theorem jwtExpiry_scenarioD_counterexample :
    jwtExpiryStoredMs "abc; exp=1700000000" = none ∧
    some (1700000000000 : Nat) ≠ (none : Option Nat) ∧
    Ev.setExpiryTimeInEpoch none ∈
      (onRegistered ⟨false, false, false, ⟨ConnState.empty, ""⟩, true, false, true,
        none, none, "user", "pass"⟩ (some "abc; exp=1700000000")).2 := by
  refine ⟨by decide, by decide, by decide⟩

/-- C6 (amended): when a registration response in access-token mode
carries the token-expiry header, the stored expiry is the value after
the first equals sign of the first semicolon-delimited segment of the
raw header string, coerced to a number (in seconds) and multiplied by
1000; when that first segment contains no equals sign the stored value
is NaN — so the header "abc; exp=1700000000" stores NaN, while a header
whose first segment is the pair, such as "exp=1700000000; abc", stores
1700000000000 ms. -/
theorem onRegistered_jwtExpiry (st : RegState) (raw : String)
    (hat : st.isAccessToken = true) :
    Ev.setExpiryTimeInEpoch (jwtExpiryStoredMs raw) ∈ (onRegistered st (some raw)).2 ∧
    jwtExpiryStoredMs "exp=1700000000; abc" = some 1700000000000 ∧
    jwtExpiryStoredMs "abc; exp=1700000000" = none := by
  refine ⟨?_, by decide, by decide⟩
  obtain ⟨hcs, mu, lcb, ci, iat, hL, hC, un, pw, cu, cp⟩ := st
  simp only at hat
  subst hat
  cases hL <;> cases hC <;> cases hcs <;> cases mu <;>
    simp [onRegistered, onRegisteredTail]

/-- C6 witness: a concrete access-token state receiving the header
"exp=1700000000; abc" records the expiry 1700000000000 ms. -/
theorem onRegistered_jwtExpiry_witness :
    Ev.setExpiryTimeInEpoch (some 1700000000000) ∈
      (onRegistered ⟨false, false, false, ⟨ConnState.empty, ""⟩, true, false, true,
        none, none, "user", "pass"⟩ (some "exp=1700000000; abc")).2 := by
  have h := onRegistered_jwtExpiry
    ⟨false, false, false, ⟨ConnState.empty, ""⟩, true, false, true,
      none, none, "user", "pass"⟩ "exp=1700000000; abc" rfl
  have hv : jwtExpiryStoredMs "exp=1700000000; abc" = some 1700000000000 := h.2.1
  have hm := h.1
  rw [hv] at hm
  exact hm

/-- C7: before the admission decision of `_validateRTCSession` runs, a
primary session whose connection reached signaling state "closed" is
cleared together with the related call identifiers, every ended pending
invite is purged, and consequently a state whose primary is stale and
whose pending invites have all ended is accepted — admission never
rejects solely because of a stale primary-session reference. -/
theorem validateRTCSession_selfHeal (ceiling : Nat) (s : CallState) (hceil : 0 < ceiling) :
    ((validateRTCSession ceiling s).1.currentSession
        = if isStalePrimary s then none else s.currentSession) ∧
    (isStalePrimary s = true →
      (validateRTCSession ceiling s).1.callUUID = none ∧
      (validateRTCSession ceiling s).1.callDirection = none ∧
      (validateRTCSession ceiling s).1.callSessionSet = false) ∧
    (∀ i ∈ (validateRTCSession ceiling s).1.incomingInvites, i.isEnded = false) ∧
    (isStalePrimary s = true → (∀ i ∈ s.incomingInvites, i.isEnded = true) →
      (validateRTCSession ceiling s).2.1 = true ∧ (validateRTCSession ceiling s).2.2 = []) := by
  have h1 : (validateRTCSession ceiling s).1 = purgeEndedInvites (cleanupStalePrimary s) := by
    simp only [validateRTCSession]
    split <;> rfl
  have hinv : (cleanupStalePrimary s).incomingInvites = s.incomingInvites := by
    unfold cleanupStalePrimary
    split <;> rfl
  refine ⟨?_, ?_, ?_, ?_⟩
  · rw [h1]
    unfold purgeEndedInvites cleanupStalePrimary
    split
    · next hyp => simp [hyp]
    · next hyp => simp at hyp; simp [hyp]
  · intro hstale
    rw [h1]
    unfold purgeEndedInvites cleanupStalePrimary
    rw [if_pos hstale]
    exact ⟨rfl, rfl, rfl⟩
  · intro i hi
    rw [h1] at hi
    unfold purgeEndedInvites at hi
    rw [hinv] at hi
    simp only [List.mem_filter, Bool.not_eq_eq_eq_not, Bool.not_true] at hi
    exact hi.2
  · intro hstale hended
    have h2 : purgeEndedInvites (cleanupStalePrimary s)
        = { s with
            currentSession := none
            callSessionSet := false
            callUUID := none
            callDirection := none
            incomingInvites := [] } := by
      unfold purgeEndedInvites cleanupStalePrimary
      rw [if_pos hstale]
      simp [filter_ended_eq_nil s.incomingInvites hended]
    have hb : busyCondition ceiling (purgeEndedInvites (cleanupStalePrimary s)) = false := by
      rw [h2]
      simp [busyCondition]
      omega
    simp only [validateRTCSession]
    rw [hb]
    exact ⟨rfl, rfl⟩

/-- C7 witness: a state whose primary session connection is "closed"
and whose single pending invite has ended is accepted with ceiling 1,
with the stale references cleared. -/
theorem validateRTCSession_selfHeal_witness :
    (validateRTCSession 1
        ⟨some ⟨some "closed"⟩, true, some "u", some "o", [⟨"x", true⟩], false⟩).2.1 = true ∧
    (validateRTCSession 1
        ⟨some ⟨some "closed"⟩, true, some "u", some "o", [⟨"x", true⟩], false⟩).1.currentSession
      = none := by
  have h := validateRTCSession_selfHeal 1
    ⟨some ⟨some "closed"⟩, true, some "u", some "o", [⟨"x", true⟩], false⟩ (by decide)
  refine ⟨(h.2.2.2 (by decide) (by decide)).1, ?_⟩
  have h0 := h.1
  rw [if_pos (by decide : isStalePrimary
    ⟨some ⟨some "closed"⟩, true, some "u", some "o", [⟨"x", true⟩], false⟩ = true)] at h0
  exact h0

/-- C8 counterexample: a transport disconnected event carrying no code
leaves the connection info unchanged (still CONNECTED), so the state is
not recorded as DISCONNECTED on every disconnected event. -/
theorem onDisconnected_missingCode_counterexample :
    (onDisconnected 1 ⟨⟨ConnState.connected, "registered"⟩, true, true, 0⟩
        ⟨none, true⟩).1.connectionInfo = ⟨ConnState.connected, "registered"⟩ ∧
    ConnState.connected ≠ ConnState.disconnected := by
  refine ⟨rfl, by decide⟩

/-- C8 (amended): on a transport disconnected event carrying a truthy
(nonzero) code, the connection state is recorded as DISCONNECTED with
the code's string as the reason, and otherwise the connection info is
left unchanged; in all cases a queued pending-login callback is invoked
exactly once and then cleared, and no invocation happens when none is
queued. -/
theorem onDisconnected_records_and_callback (n : Nat) (st : TransportState)
    (evt : DisconnectEvent) :
    (codeTruthy evt.code = true →
      (onDisconnected n st evt).1.connectionInfo
        = ⟨ConnState.disconnected, toString (evt.code.getD 0)⟩) ∧
    (codeTruthy evt.code = false →
      (onDisconnected n st evt).1.connectionInfo = st.connectionInfo) ∧
    (st.hasLoginCallback = true →
      countInvokeLoginCallback (onDisconnected n st evt).2 = 1 ∧
      (onDisconnected n st evt).1.hasLoginCallback = false) ∧
    (st.hasLoginCallback = false →
      countInvokeLoginCallback (onDisconnected n st evt).2 = 0) := by
  obtain ⟨ci, sp, lc, ui⟩ := st
  obtain ⟨code, ign⟩ := evt
  cases hc : codeTruthy code <;> cases lc <;> cases ign <;>
    simp [onDisconnected, hc, countInvokeLoginCallback]

/-- C8 witness: a concrete disconnect with code 1006 and a queued
callback records DISCONNECTED/"1006" and invokes the callback once. -/
theorem onDisconnected_records_and_callback_witness :
    (onDisconnected 2 ⟨⟨ConnState.empty, ""⟩, true, true, 0⟩
        ⟨some 1006, false⟩).1.connectionInfo = ⟨ConnState.disconnected, "1006"⟩ ∧
    countInvokeLoginCallback
      (onDisconnected 2 ⟨⟨ConnState.empty, ""⟩, true, true, 0⟩ ⟨some 1006, false⟩).2 = 1 := by
  have h := onDisconnected_records_and_callback 2 ⟨⟨ConnState.empty, ""⟩, true, true, 0⟩
    ⟨some 1006, false⟩
  have h1 := h.1 (by decide)
  have hstr : toString (((some 1006 : Option Nat)).getD 0) = "1006" := rfl
  rw [hstr] at h1
  exact ⟨h1, (h.2.2.1 rfl).1⟩

/-- C9: a registrationFailed event arriving while the connection state
is DISCONNECTED and the client is still marked logged in is ignored:
the state (logged-in flag, stored credentials, connection info, timer
flag) is returned unchanged and no notification is emitted. -/
theorem onRegistrationFailed_staleIgnored (st : RegFailState) (err : RegFailError)
    (errorStringByCode : Nat → String)
    (hd : st.connectionInfo.state = ConnState.disconnected)
    (hl : st.isLoggedIn = true) :
    onRegistrationFailed st err errorStringByCode = (st, []) := by
  unfold onRegistrationFailed
  rw [if_pos ⟨hd, hl⟩]

/-- C9 witness: a concrete stale registration failure is ignored. -/
theorem onRegistrationFailed_staleIgnored_witness :
    onRegistrationFailed
        ⟨⟨ConnState.disconnected, "1006"⟩, true, some "u", some "p", false, true⟩
        ⟨some "Authentication Error", some 403⟩ (fun _ => "UNKNOWN ERROR")
      = (⟨⟨ConnState.disconnected, "1006"⟩, true, some "u", some "p", false, true⟩, []) :=
  onRegistrationFailed_staleIgnored
    ⟨⟨ConnState.disconnected, "1006"⟩, true, some "u", some "p", false, true⟩
    ⟨some "Authentication Error", some 403⟩ (fun _ => "UNKNOWN ERROR") rfl rfl

/-- C10: every unregistered event emits exactly one onConnectionChange
notification — also when the state was already DISCONNECTED — and the
connection info is set to DISCONNECTED with reason "unregistered"
exactly when the prior state was CONNECTED or the initial empty state,
being left unchanged otherwise. -/
theorem onUnRegistered_connChange (st : UnregState) :
    countConnChange (onUnRegistered st).2 = 1 ∧
    (onUnRegistered st).1.connectionInfo =
      (if st.connectionInfo.state = ConnState.empty
          ∨ st.connectionInfo.state = ConnState.connected then
        ⟨ConnState.disconnected, "unregistered"⟩
      else st.connectionInfo) := by
  obtain ⟨hL, ci, lo, rt, rb, un, pw, nc⟩ := st
  obtain ⟨cst, reason⟩ := ci
  cases cst <;> cases lo <;> cases rt <;> cases rb <;> cases nc <;>
    simp [onUnRegistered, countConnChange]

end Plivo
